import Mathlib

/-!
Verification of the Intelligent Eye sensor-fusion and audio-arbitration
pipeline: a shallow embedding of the Python sources (`audio_system.py`,
`battery_monitor.py`, `performance_monitor.py`, `ultrasonic_sensor.py`,
`intelligent_eye_system.py`) and proofs of the specified properties.

Floating-point arithmetic of the source is embedded as exact arithmetic
over `ℚ` (and over `ℝ` where the source takes square roots).

The threaded `AudioSystem` is embedded twice.  The `Audio` namespace
gives the serialized semantics: each method body executed without
interleaving, which is the behavior of a call made from a sequential
context and the discipline the `queue_lock` of the source is intended to
enforce across threads.  The `AudioFine` namespace gives the faithful
statement-level interleaving semantics: every Python statement of
`speak`, `stop_speaking`, the spawned speak thread and `_process_queue`
is one transition of one thread, lock acquisition blocks, and a schedule
chooses which thread steps next.  The fine-grained model exposes that
the source sets `is_speaking` only inside the spawned thread, outside
the lock, and runs `stop_speaking` before taking the lock, so several
guarantees the serialized semantics proves are violated by concrete
interleavings of the code.
-/

namespace IntelligentEye

/-! ## AudioSystem, serialized semantics (src/audio_system.py)

Each definition below is one method body of `AudioSystem` executed
without interleaving: the behavior of a call from a sequential context
(such as the battery callback), and across threads the behavior the
`queue_lock` of the source is intended to enforce.  The source does not
actually provide this serialization — see the `AudioFine` namespace for
the statement-level interleaving semantics.  State: `active` is the list
of utterances currently started on the audio device, `queue` mirrors
`audio_queue`, and `spokenLog` is instrumentation recording every text
handed to the device, in order. -/

namespace Audio

structure State where
  active : List String
  queue : List String
  spokenLog : List String
deriving DecidableEq

/-- Initial state: idle, empty queue. -/
def initState : State := ⟨[], [], []⟩

/-- Mirrors `AudioSystem._speak_immediately`: start an utterance on the
device (the spawned thread sets `is_speaking`). -/
def speakImmediately (s : State) (text : String) : State :=
  { s with active := s.active ++ [text], spokenLog := s.spokenLog ++ [text] }

/-- Mirrors `AudioSystem.stop_speaking`: interrupt the device and clear
`is_speaking`; the remainder of the interrupted utterance is discarded. -/
def stopSpeaking (s : State) : State :=
  { s with active := [] }

/-- Mirrors `AudioSystem.speak(text, priority)`: a High request first
interrupts any in-flight utterance, then speaks immediately; a Normal
request speaks immediately when idle and is appended to the queue when
speaking. -/
def speak (s : State) (text : String) (priority : Bool) : State :=
  let s1 := if priority then stopSpeaking s else s
  if priority || s1.active.isEmpty then speakImmediately s1 text
  else { s1 with queue := s1.queue ++ [text] }

/-- Mirrors `AudioSystem._process_queue`: when idle and the queue is
nonempty, pop the oldest entry and speak it. -/
def processQueue (s : State) : State :=
  if s.active.isEmpty then
    match s.queue with
    | [] => s
    | t :: rest => speakImmediately { s with queue := rest } t
  else s

/-- Completion of the current utterance: the `finally` block of the
speak thread clears `is_speaking` and then calls `_process_queue`. -/
def complete (s : State) : State :=
  processQueue { s with active := [] }

/-- An atomic event of the arbitrator: a `speak` call or the completion
of the in-flight utterance. -/
inductive Event where
  | speak (text : String) (priority : Bool)
  | complete
deriving DecidableEq

/-- One atomic transition. -/
def step (s : State) : Event → State
  | .speak text priority => speak s text priority
  | .complete => complete s

/-- Run a sequence of events. -/
def run (s : State) (evs : List Event) : State :=
  evs.foldl step s

/-- The Normal-priority texts announced by an event sequence, in order. -/
def announcedNormals (evs : List Event) : List String :=
  evs.filterMap fun e =>
    match e with
    | .speak t false => some t
    | _ => none

/-- Whether an event sequence contains a High-priority speak. -/
def hasHigh (evs : List Event) : Bool :=
  evs.any fun e =>
    match e with
    | .speak _ true => true
    | _ => false

/-- Whether an event sequence speaks the text `u` (at either priority). -/
def mentionsText (u : String) (evs : List Event) : Bool :=
  evs.any fun e =>
    match e with
    | .speak t _ => t == u
    | .complete => false

/-- The reachability invariant of the arbitrator: at most one utterance
is active on the device, and an idle arbitrator has an empty queue. -/
def StateInv (s : State) : Prop :=
  s.active.length ≤ 1 ∧ (s.active = [] → s.queue = [])

end Audio

/-! ## AudioSystem, statement-level interleaving semantics

A faithful small-step embedding of the threaded code of
src/audio_system.py.  Every Python statement is one transition of one
thread; `with self.queue_lock` is an acquire step that blocks while the
lock is held and a release step at the end of the block.  Crucially, as
in the source: `stop_speaking` runs before the lock is taken
(audio_system.py:57), `is_speaking = True` is executed by the spawned
speak thread outside the lock (audio_system.py:74), and the `finally`
block performs `is_speaking = False` and `_process_queue()` as two
separate unsynchronized steps (audio_system.py:81-82). -/

namespace AudioFine

/-- Shared mutable state of the audio system: the `is_speaking` flag,
the `audio_queue`, whether `queue_lock` is held, the utterances
currently playing on the device, and an append-only log of every text
handed to the device in start order. -/
structure Shared where
  isSpeaking : Bool
  queue : List String
  locked : Bool
  active : List String
  started : List String
deriving DecidableEq

/-- Program counter of a thread running `AudioSystem.speak(text,
priority)`: the two statements of `stop_speaking` (priority path only),
acquiring `queue_lock`, the guarded branch, and releasing the lock. -/
inductive CallerPc where
  | stopDevice
  | stopFlag
  | acquire
  | branch
  | release
  | done
deriving DecidableEq

/-- Program counter of a spawned speak thread: set `is_speaking`, start
the utterance (`say` + `runAndWait` begins), `runAndWait` returns, the
`finally` clears `is_speaking`, then `_process_queue` takes the lock,
runs its guarded pop, and releases. -/
inductive WorkerPc where
  | setFlag
  | startUtter
  | finishUtter
  | clearFlag
  | pqAcquire
  | pqCheck
  | pqRelease
  | done
deriving DecidableEq

/-- A thread: either a `speak` caller or a spawned speak thread. -/
inductive Thread where
  | caller (text : String) (priority : Bool) (pc : CallerPc)
  | worker (text : String) (pc : WorkerPc)
deriving DecidableEq

/-- A configuration: the shared state and all threads (spawned threads
are appended at the end, so indices are stable). -/
structure Config where
  shared : Shared
  threads : List Thread
deriving DecidableEq

/-- A fresh `speak(text, priority)` call: the priority path begins at
`stop_speaking`, the normal path at the lock acquisition. -/
def mkCaller (text : String) (priority : Bool) : Thread :=
  .caller text priority (if priority then .stopDevice else .acquire)

/-- Initial shared state: idle, empty queue, lock free. -/
def initShared : Shared := ⟨false, [], false, [], []⟩

/-- One statement of a `speak` caller: result shared state, next pc, and
an optionally spawned speak thread.  A blocked lock acquisition leaves
the state unchanged. -/
def stepCaller (sh : Shared) (text : String) (priority : Bool) :
    CallerPc → Shared × CallerPc × Option Thread
  | .stopDevice => ({ sh with active := [] }, .stopFlag, none)
  | .stopFlag => ({ sh with isSpeaking := false }, .acquire, none)
  | .acquire =>
    if sh.locked then (sh, .acquire, none)
    else ({ sh with locked := true }, .branch, none)
  | .branch =>
    if priority || !sh.isSpeaking then
      (sh, .release, some (.worker text .setFlag))
    else
      ({ sh with queue := sh.queue ++ [text] }, .release, none)
  | .release => ({ sh with locked := false }, .done, none)
  | .done => (sh, .done, none)

/-- One statement of a spawned speak thread.  `finishUtter` removes the
utterance from the device if it is still playing (a no-op when an
interrupt already stopped it); `pqCheck` is the guarded pop of
`_process_queue`, performed under the lock. -/
def stepWorker (sh : Shared) (text : String) :
    WorkerPc → Shared × WorkerPc × Option Thread
  | .setFlag => ({ sh with isSpeaking := true }, .startUtter, none)
  | .startUtter =>
    ({ sh with active := sh.active ++ [text], started := sh.started ++ [text] },
      .finishUtter, none)
  | .finishUtter => ({ sh with active := sh.active.erase text }, .clearFlag, none)
  | .clearFlag => ({ sh with isSpeaking := false }, .pqAcquire, none)
  | .pqAcquire =>
    if sh.locked then (sh, .pqAcquire, none)
    else ({ sh with locked := true }, .pqCheck, none)
  | .pqCheck =>
    match sh.queue, sh.isSpeaking with
    | h :: rest, false =>
      ({ sh with queue := rest }, .pqRelease, some (.worker h .setFlag))
    | _, _ => (sh, .pqRelease, none)
  | .pqRelease => ({ sh with locked := false }, .done, none)
  | .done => (sh, .done, none)

/-- Run one statement of thread `i` (no-op on an invalid index); a
spawned thread is appended to the thread list. -/
def stepThread (c : Config) (i : ℕ) : Config :=
  match c.threads.get? i with
  | none => c
  | some (.caller text priority pc) =>
    let r := stepCaller c.shared text priority pc
    { shared := r.1
      threads := (c.threads.set i (.caller text priority r.2.1)) ++ r.2.2.toList }
  | some (.worker text pc) =>
    let r := stepWorker c.shared text pc
    { shared := r.1
      threads := (c.threads.set i (.worker text r.2.1)) ++ r.2.2.toList }

/-- Run a schedule: a list of thread indices, executed in order. -/
def runSched (c : Config) (sched : List ℕ) : Config :=
  sched.foldl stepThread c

/-- Two concurrent Normal `speak` calls, for the C1 race. -/
def doubleSpeakConfig : Config :=
  ⟨initShared, [mkCaller "a" false, mkCaller "b" false]⟩

/-- Schedule for the C1 race: both callers pass the lock-protected
`not is_speaking` check before either spawned thread runs, then both
spawned threads start their utterances. -/
def doubleSpeakSched : List ℕ := [0, 0, 0, 1, 1, 1, 2, 2, 3, 3]

/-- Speaking "a" with "b" queued, then a High-priority "u", for the C2
race. -/
def preemptRaceConfig : Config :=
  ⟨initShared, [mkCaller "a" false, mkCaller "b" false, mkCaller "u" true]⟩

/-- Schedule for the C2 race: "a" starts speaking, "b" is queued, the
preemptor runs `stop_speaking`; before the preemptor reaches the lock,
the interrupted thread finishes its `finally`, whose `_process_queue`
pops "b" and starts it; only then does the preemptor speak "u". -/
def preemptRaceSched : List ℕ :=
  [0, 0, 0, 3, 3, 1, 1, 1, 2, 2, 3, 3, 3, 3, 3, 4, 4, 2, 2, 2, 5, 5]

/-- Three Normal `speak` calls a, b, c, for the C3 race. -/
def fifoRaceConfig : Config :=
  ⟨initShared, [mkCaller "a" false, mkCaller "b" false, mkCaller "c" false]⟩

/-- Schedule for the C3 race: "a" speaks, "b" is queued; the thread of
"a" completes and clears `is_speaking` but has not yet run
`_process_queue` when the call for "c" takes the lock, sees
`is_speaking == False`, and starts "c"; `_process_queue` of "a" then
finds `is_speaking == True` and leaves "b" queued, so "b" is only spoken
after "c" completes. -/
def fifoRaceSched : List ℕ :=
  [0, 0, 0, 3, 3, 1, 1, 1, 3, 3, 2, 2, 2, 4, 4, 3, 3, 3, 4, 4, 4, 4, 4, 5, 5]

end AudioFine

/-! ## BatteryMonitor (src/battery_monitor.py) -/

namespace Battery

/-- Constant `BatteryMonitor.critical_level`. -/
def criticalLevel : ℚ := 10

/-- Constant `BatteryMonitor.low_level`. -/
def lowLevel : ℚ := 20

/-- Constant `BatteryMonitor.warning_level`. -/
def warningLevel : ℚ := 30

/-- The level types passed to battery callbacks. -/
inductive LevelType where
  | critical
  | low
  | warning
deriving DecidableEq

/-- Mirrors `BatteryMonitor._check_battery_level`: which callback (if
any) fires for a given battery level. -/
def classifyLevel (level : ℚ) : Option LevelType :=
  if level ≤ criticalLevel then some .critical
  else if level ≤ lowLevel then some .low
  else if level ≤ warningLevel then some .warning
  else none

/-- Mirrors `BatteryMonitor._update_power_save_mode`: enter power-save at
or below the warning level, leave it only strictly above warning + 10. -/
def updatePowerSaveMode (level : ℚ) (powerSaveMode : Bool) : Bool :=
  if level ≤ warningLevel ∧ powerSaveMode = false then true
  else if warningLevel + 10 < level ∧ powerSaveMode = true then false
  else powerSaveMode

end Battery

/-! ## PerformanceMonitor (src/performance_monitor.py) -/

namespace Perf

/-- Result of `PerformanceMonitor.get_accuracy_metrics`. -/
structure AccuracyMetrics where
  accuracy : ℚ
  precisionV : ℚ
  recallV : ℚ
  f1 : ℚ
deriving DecidableEq

/-- Signed value of true positives, computed as total minus false
positives exactly as the source does (Python int subtraction can go
negative, hence a signed value embedded in `ℚ`). -/
def truePositives (total fp : ℕ) : ℚ := (total : ℚ) - fp

/-- The precision expression of `get_accuracy_metrics`. -/
def precisionOf (total fp : ℕ) : ℚ :=
  if 0 < truePositives total fp + fp then
    truePositives total fp / (truePositives total fp + fp)
  else 0

/-- The recall expression of `get_accuracy_metrics`. -/
def recallOf (total fp fn : ℕ) : ℚ :=
  if 0 < truePositives total fp + fn then
    truePositives total fp / (truePositives total fp + fn)
  else 0

/-- The F1 expression of `get_accuracy_metrics`. -/
def f1Of (total fp fn : ℕ) : ℚ :=
  if 0 < precisionOf total fp + recallOf total fp fn then
    2 * (precisionOf total fp * recallOf total fp fn) /
      (precisionOf total fp + recallOf total fp fn)
  else 0

/-- Mirrors `PerformanceMonitor.get_accuracy_metrics`: all-zero metrics
when no detection was recorded, otherwise the guarded ratios. -/
def getAccuracyMetrics (total fp fn : ℕ) : AccuracyMetrics :=
  if total = 0 then ⟨0, 0, 0, 0⟩
  else
    { accuracy := truePositives total fp / total
      precisionV := precisionOf total fp
      recallV := recallOf total fp fn
      f1 := f1Of total fp fn }

/-- Threshold `max_latency_ms` of `SYSTEM_CONFIG` (src/config.py). -/
def maxLatencyMs : ℚ := 200

/-- Arithmetic mean of a list of samples, as `np.mean` computes it. -/
def meanList (xs : List ℚ) : ℚ := xs.sum / (xs.length : ℚ)

/-- The last ten recorded samples, as the slice in the source takes them. -/
def lastTen (xs : List ℚ) : List ℚ := xs.drop (xs.length - 10)

/-- Mirrors the detection-latency branch of
`PerformanceMonitor._check_performance_thresholds`: the latency warning
fires only when more than ten samples are recorded and the mean of the
last ten exceeds the threshold. -/
def latencyWarningFires (latencies : List ℚ) (threshold : ℚ) : Bool :=
  if 10 < latencies.length then
    if threshold < meanList (lastTen latencies) then true else false
  else false

/-- Number of times the latency warning fires when the samples are
recorded one by one and the threshold check runs after every append (the
most generous per-sample policy; the source actually checks on a 1 s
timer, which can only fire fewer times). -/
def breachCount (samples : List ℚ) (threshold : ℚ) : ℕ :=
  ((List.range samples.length).filter fun i =>
    latencyWarningFires (samples.take (i + 1)) threshold).length

end Perf

/-! ## UltrasonicSensor (src/ultrasonic_sensor.py) -/

namespace Ultrasonic

/-- Constant `max_distance_cm` of `ULTRASONIC_CONFIG`. -/
def maxDistanceCm : ℚ := 400

/-- Constant `min_distance_cm` of `ULTRASONIC_CONFIG`. -/
def minDistanceCm : ℚ := 2

/-- Constant `warning_distance_cm` of `ULTRASONIC_CONFIG`. -/
def warningDistanceCm : ℚ := 100

/-- Outcome of one echo measurement attempt: a timeout while waiting for
the rising edge, a timeout while waiting for the falling edge (each
bounded by 100 ms in the source), or an echo pulse of the given duration
in seconds. -/
inductive EchoOutcome where
  | timeoutRise
  | timeoutFall
  | pulse (duration : ℚ)
deriving DecidableEq

/-- Mirrors `UltrasonicSensor.measure_distance`: `None` on either
timeout, `distance = duration * 34300 / 2`, and `None` when the distance
falls outside the plausible `[min, max]` range. -/
def measureDistance : EchoOutcome → Option ℚ
  | .timeoutRise => none
  | .timeoutFall => none
  | .pulse duration =>
    let distance := duration * 34300 / 2
    if minDistanceCm ≤ distance ∧ distance ≤ maxDistanceCm then some distance
    else none

/-- Observable state of the monitoring loop of the sensor. -/
structure SensorState where
  currentDistance : Option ℚ
  obstacleDetected : Bool
deriving DecidableEq

/-- One iteration of `UltrasonicSensor._monitor_loop` for a given echo
outcome: a valid measurement updates the distance and the obstacle flag,
a miss clears the obstacle flag and keeps the loop going. -/
def monitorStep (s : SensorState) (e : EchoOutcome) : SensorState :=
  match measureDistance e with
  | some d => { currentDistance := some d, obstacleDetected := decide (d ≤ warningDistanceCm) }
  | none => { s with obstacleDetected := false }

/-- The monitoring loop over a sequence of echo outcomes. -/
def monitorRun (s : SensorState) (es : List EchoOutcome) : SensorState :=
  es.foldl monitorStep s

end Ultrasonic

/-! ## IntelligentEyeSystem (src/intelligent_eye_system.py) -/

namespace Orchestrator

/-- A bounding box `[x1, y1, x2, y2]` as the detector returns it. -/
structure BBox where
  x1 : ℝ
  y1 : ℝ
  x2 : ℝ
  y2 : ℝ

/-- Area (width times height) of a bounding box, as computed by
`IntelligentEyeSystem._estimate_object_distance`. -/
def bboxArea (b : BBox) : ℝ := (b.x2 - b.x1) * (b.y2 - b.y1)

/-- Mirrors `IntelligentEyeSystem._estimate_object_distance`: an
inverse-square-root distance proxy with per-class scale constants and a
class-bucketed floor. -/
noncomputable def estimateObjectDistance (cls : String) (b : BBox) : ℝ :=
  if cls = "person" ∨ cls = "bicycle" then
    max 50 (1000 / Real.sqrt (bboxArea b))
  else if cls = "car" ∨ cls = "truck" ∨ cls = "bus" then
    max 100 (2000 / Real.sqrt (bboxArea b))
  else
    max 30 (800 / Real.sqrt (bboxArea b))

/-- What one invocation of `IntelligentEyeSystem._battery_callback` does:
which message it speaks (with the Boolean `priority` argument it passes
to `AudioSystem.speak`), and whether it calls `stop_system`. -/
structure BatteryCallbackEffect where
  spokenText : String
  spokenPriority : Bool
  stopsSystem : Bool
deriving DecidableEq

/-- Mirrors `IntelligentEyeSystem._battery_callback`: on `critical` it
speaks a final message (with the default `priority=False`) and calls
`stop_system`; on `low` and `warning` it only speaks. -/
def batteryCallback : Battery.LevelType → BatteryCallbackEffect
  | .critical => ⟨"Critical battery level, shutting down", false, true⟩
  | .low => ⟨"Battery low, please recharge", false, false⟩
  | .warning => ⟨"Battery warning", false, false⟩

/-- The loop/monitor flags of the orchestrator that `stop_system`
touches, together with the state of the audio arbitrator. -/
structure SystemState where
  isRunning : Bool
  perfMonitoring : Bool
  batteryMonitoring : Bool
  ultrasonicRunning : Bool
  visionRunning : Bool
  audio : Audio.State
deriving DecidableEq

/-- Mirrors `IntelligentEyeSystem.stop_system`: clears the running flag,
stops both monitors and both sampling loops, and interrupts the
speaker. -/
def stopSystem (s : SystemState) : SystemState :=
  { isRunning := false
    perfMonitoring := false
    batteryMonitoring := false
    ultrasonicRunning := false
    visionRunning := false
    audio := Audio.stopSpeaking s.audio }

/-- The battery callback acting on the orchestrator state: it speaks the
message of `batteryCallback` and, exactly on `critical`, performs the
full `stop_system` shutdown afterwards. -/
def handleBatteryEvent (s : SystemState) (lt : Battery.LevelType) : SystemState :=
  let eff := batteryCallback lt
  let s1 := { s with audio := Audio.speak s.audio eff.spokenText eff.spokenPriority }
  if eff.stopsSystem then stopSystem s1 else s1

end Orchestrator

/-! ## Theorems -/

namespace Audio

theorem stateInv_init : StateInv initState := by
  constructor <;> simp [initState]

theorem stateInv_speak (s : State) (h : StateInv s) (t : String) (p : Bool) :
    StateInv (speak s t p) := by
  obtain ⟨h1, h2⟩ := h
  cases p with
  | true => simp [speak, stopSpeaking, speakImmediately, StateInv]
  | false =>
    by_cases hA : s.active = []
    · simp [speak, speakImmediately, StateInv, hA]
    · have hA' : s.active.isEmpty = false := by
        simpa [List.isEmpty_iff] using hA
      simp only [speak, Bool.false_or, hA', if_neg Bool.false_ne_true]
      exact ⟨h1, fun h => absurd h hA⟩

theorem stateInv_complete (s : State) : StateInv (complete s) := by
  unfold complete processQueue
  cases hq : s.queue with
  | nil => simp [StateInv, hq]
  | cons t rest => simp [StateInv, hq, speakImmediately]

theorem stateInv_step (s : State) (h : StateInv s) (e : Event) :
    StateInv (step s e) := by
  cases e with
  | speak t p => exact stateInv_speak s h t p
  | complete => exact stateInv_complete s

theorem stateInv_run (evs : List Event) :
    ∀ s : State, StateInv s → StateInv (run s evs) := by
  induction evs with
  | nil => intro s h; exact h
  | cons e evs ih =>
    intro s h
    exact ih (step s e) (stateInv_step s h e)

theorem spoken_queue_speak_normal (s : State) (h : StateInv s) (t : String) :
    (speak s t false).spokenLog ++ (speak s t false).queue
      = (s.spokenLog ++ s.queue) ++ [t] := by
  by_cases hA : s.active = []
  · have hq : s.queue = [] := h.2 hA
    simp [speak, speakImmediately, hA, hq]
  · have hA' : s.active.isEmpty = false := by
      simpa [List.isEmpty_iff] using hA
    simp [speak, hA']

theorem spoken_queue_complete (s : State) :
    (complete s).spokenLog ++ (complete s).queue = s.spokenLog ++ s.queue := by
  unfold complete processQueue
  cases hq : s.queue with
  | nil => simp [hq]
  | cons t rest => simp [hq, speakImmediately]

theorem spoken_queue_run (evs : List Event) (hh : hasHigh evs = false) :
    ∀ s : State, StateInv s →
      (run s evs).spokenLog ++ (run s evs).queue
        = (s.spokenLog ++ s.queue) ++ announcedNormals evs := by
  induction evs with
  | nil => intro s _; simp [run, announcedNormals]
  | cons e evs ih =>
    intro s hs
    have hh' : hasHigh evs = false := by
      simp only [hasHigh, List.any_cons, Bool.or_eq_false_iff] at hh
      exact hh.2
    cases e with
    | speak t p =>
      cases p with
      | true => simp [hasHigh] at hh
      | false =>
        have : run s (Event.speak t false :: evs) = run (speak s t false) evs := rfl
        rw [this, ih hh' (speak s t false) (stateInv_speak s hs t false),
          spoken_queue_speak_normal s hs t]
        simp [announcedNormals, List.append_assoc]
    | complete =>
      have : run s (Event.complete :: evs) = run (complete s) evs := rfl
      rw [this, ih hh' (complete s) (stateInv_complete s), spoken_queue_complete s]
      simp [announcedNormals]

theorem text_absent_run (u : String) (evs : List Event) :
    mentionsText u evs = false →
    ∀ s : State, u ∉ s.active → u ∉ s.queue →
      u ∉ (run s evs).active ∧ u ∉ (run s evs).queue := by
  induction evs with
  | nil => intro _ s ha hq; exact ⟨ha, hq⟩
  | cons e evs ih =>
    intro hm s ha hq
    simp only [mentionsText, List.any_cons, Bool.or_eq_false_iff] at hm
    have hm' : mentionsText u evs = false := hm.2
    cases e with
    | speak t p =>
      have hne : t ≠ u := by
        have := hm.1
        simpa using this
      have step_eq : run s (Event.speak t p :: evs) = run (speak s t p) evs := rfl
      rw [step_eq]
      refine ih hm' (speak s t p) ?_ ?_
      · cases p with
        | true =>
          simp only [speak, stopSpeaking, speakImmediately]
          simp [Ne.symm hne]
        | false =>
          by_cases hA : s.active = []
          · simp [speak, speakImmediately, hA, Ne.symm hne]
          · have hA' : s.active.isEmpty = false := by
              simpa [List.isEmpty_iff] using hA
            simpa [speak, hA'] using ha
      · cases p with
        | true => simpa [speak, stopSpeaking, speakImmediately] using hq
        | false =>
          by_cases hA : s.active = []
          · simpa [speak, speakImmediately, hA] using hq
          · have hA' : s.active.isEmpty = false := by
              simpa [List.isEmpty_iff] using hA
            simp [speak, hA', Ne.symm hne, hq]
    | complete =>
      have step_eq : run s (Event.complete :: evs) = run (complete s) evs := rfl
      rw [step_eq]
      refine ih hm' (complete s) ?_ ?_ <;>
        · unfold complete processQueue
          cases hqq : s.queue with
          | nil => simp
          | cons t rest =>
            rw [hqq] at hq
            simp only [List.mem_cons, not_or] at hq
            simp [speakImmediately, hq.1, hq.2]

end Audio

/-- Intent of the arbitration logic, under the serialized semantics
(each `speak` call and each completion running atomically, the
discipline `queue_lock` is meant to enforce): at most one announcement
is ever active on the audio device.  The implementation does not provide
this serialization — see `audio_double_speak_trace`. -/
theorem serialized_at_most_one_active (evs : List Audio.Event) :
    (Audio.run Audio.initState evs).active.length ≤ 1 :=
  (Audio.stateInv_run evs Audio.initState Audio.stateInv_init).1

/-- Intent of the priority path under the serialized semantics: a
high-priority `speak` issued while speaking `u` interrupts `u`, makes
the new text the active utterance, leaves the backlog unchanged, and `u`
never returns unless announced anew.  The implementation runs
`stop_speaking` outside the lock, which breaks the spoken-next part —
see `audio_preemption_race_trace`. -/
theorem serialized_high_priority_preempts_and_drops (s : Audio.State) (u t : String)
    (evs : List Audio.Event) (hact : s.active = [u]) (hq : u ∉ s.queue)
    (hne : u ≠ t) (hm : Audio.mentionsText u evs = false) :
    (Audio.speak s t true).active = [t] ∧
    (Audio.speak s t true).queue = s.queue ∧
    u ∉ (Audio.run (Audio.speak s t true) evs).active ∧
    u ∉ (Audio.run (Audio.speak s t true) evs).queue := by
  have h1 : (Audio.speak s t true).active = [t] := by
    simp [Audio.speak, Audio.stopSpeaking, Audio.speakImmediately]
  have h2 : (Audio.speak s t true).queue = s.queue := by
    simp [Audio.speak, Audio.stopSpeaking, Audio.speakImmediately]
  have h3 := Audio.text_absent_run u evs hm (Audio.speak s t true)
    (by rw [h1]; simp [hne]) (by rw [h2]; exact hq)
  exact ⟨h1, h2, h3.1, h3.2⟩

theorem serialized_high_priority_preempts_and_drops_example :
    (Audio.speak ⟨["hello"], [], ["hello"]⟩ "urgent" true).active = ["urgent"] ∧
    (Audio.speak ⟨["hello"], [], ["hello"]⟩ "urgent" true).queue = [] ∧
    "hello" ∉ (Audio.run (Audio.speak ⟨["hello"], [], ["hello"]⟩ "urgent" true)
      [Audio.Event.complete, Audio.Event.speak "next" false]).active ∧
    "hello" ∉ (Audio.run (Audio.speak ⟨["hello"], [], ["hello"]⟩ "urgent" true)
      [Audio.Event.complete, Audio.Event.speak "next" false]).queue :=
  serialized_high_priority_preempts_and_drops ⟨["hello"], [], ["hello"]⟩ "hello" "urgent"
    [Audio.Event.complete, Audio.Event.speak "next" false]
    rfl (by simp) (by decide) (by decide)

/-- Intent of the backlog under the serialized semantics: for runs of
Normal announces and completions, the texts handed to the device
followed by the pending backlog equal the announced texts in submission
order (FIFO), an idle arbitrator speaks immediately, a speaking one
appends, and completion pops the oldest entry.  The implementation
splits the completion into two unsynchronized steps, which breaks the
FIFO order — see `audio_fifo_inversion_trace`. -/
theorem serialized_normal_priority_fifo (evs : List Audio.Event)
    (hh : Audio.hasHigh evs = false) :
    ((Audio.run Audio.initState evs).spokenLog ++ (Audio.run Audio.initState evs).queue
      = Audio.announcedNormals evs) ∧
    (∀ s : Audio.State, s.active = [] → ∀ t,
      (Audio.speak s t false).active = [t] ∧
      (Audio.speak s t false).spokenLog = s.spokenLog ++ [t]) ∧
    (∀ s : Audio.State, s.active ≠ [] → ∀ t,
      Audio.speak s t false = { s with queue := s.queue ++ [t] }) ∧
    (∀ s : Audio.State, ∀ t rest, s.queue = t :: rest →
      (Audio.complete s).active = [t] ∧ (Audio.complete s).queue = rest ∧
      (Audio.complete s).spokenLog = s.spokenLog ++ [t]) ∧
    (∀ s : Audio.State, s.queue = [] → (Audio.complete s).active = []) := by
  refine ⟨?_, ?_, ?_, ?_, ?_⟩
  · have := Audio.spoken_queue_run evs hh Audio.initState Audio.stateInv_init
    simpa [Audio.initState] using this
  · intro s hA t
    constructor <;> simp [Audio.speak, Audio.speakImmediately, hA]
  · intro s hA t
    have hA' : s.active.isEmpty = false := by
      simpa [List.isEmpty_iff] using hA
    simp [Audio.speak, hA']
  · intro s t rest hq
    unfold Audio.complete Audio.processQueue
    refine ⟨?_, ?_, ?_⟩ <;> simp [hq, Audio.speakImmediately]
  · intro s hq
    unfold Audio.complete Audio.processQueue
    simp [hq]

theorem serialized_normal_priority_fifo_example :
    ((Audio.run Audio.initState
        [Audio.Event.speak "a" false, Audio.Event.speak "b" false,
          Audio.Event.speak "c" false, Audio.Event.complete]).spokenLog ++
      (Audio.run Audio.initState
        [Audio.Event.speak "a" false, Audio.Event.speak "b" false,
          Audio.Event.speak "c" false, Audio.Event.complete]).queue
      = Audio.announcedNormals
        [Audio.Event.speak "a" false, Audio.Event.speak "b" false,
          Audio.Event.speak "c" false, Audio.Event.complete]) ∧
    (∀ s : Audio.State, s.active = [] → ∀ t,
      (Audio.speak s t false).active = [t] ∧
      (Audio.speak s t false).spokenLog = s.spokenLog ++ [t]) ∧
    (∀ s : Audio.State, s.active ≠ [] → ∀ t,
      Audio.speak s t false = { s with queue := s.queue ++ [t] }) ∧
    (∀ s : Audio.State, ∀ t rest, s.queue = t :: rest →
      (Audio.complete s).active = [t] ∧ (Audio.complete s).queue = rest ∧
      (Audio.complete s).spokenLog = s.spokenLog ++ [t]) ∧
    (∀ s : Audio.State, s.queue = [] → (Audio.complete s).active = []) :=
  serialized_normal_priority_fifo
    [Audio.Event.speak "a" false, Audio.Event.speak "b" false,
      Audio.Event.speak "c" false, Audio.Event.complete]
    (by decide)

/-- C1: refuted on the code.  In the statement-level interleaving
semantics of src/audio_system.py there is a schedule of two Normal
`speak` calls after which two utterances are active on the device at
once: both callers pass the lock-protected `not is_speaking` check
before either spawned thread has executed `is_speaking = True`
(audio_system.py:74, outside the lock), so both call
`_speak_immediately` and both utterances start. -/
theorem audio_double_speak_trace :
    (AudioFine.runSched AudioFine.doubleSpeakConfig
      AudioFine.doubleSpeakSched).shared.active = ["a", "b"] ∧
    ¬ ((AudioFine.runSched AudioFine.doubleSpeakConfig
      AudioFine.doubleSpeakSched).shared.active.length ≤ 1) := by
  exact ⟨by decide, by decide⟩

/-- C2: the spoken-next guarantee is refuted on the code.  While "a" is
speaking with "b" queued, a High-priority `speak("u")` first runs
`stop_speaking` outside the lock (audio_system.py:57); the interrupted
thread then runs its `finally`, whose `_process_queue` pops "b" and
starts it, before the preemptor reaches the lock.  The device start
order is a, b, u — the preempting text is not spoken next — and the
final state has both "b" and "u" active at once. -/
theorem audio_preemption_race_trace :
    (AudioFine.runSched AudioFine.preemptRaceConfig
      AudioFine.preemptRaceSched).shared.started = ["a", "b", "u"] ∧
    (AudioFine.runSched AudioFine.preemptRaceConfig
      AudioFine.preemptRaceSched).shared.active = ["b", "u"] ∧
    (AudioFine.runSched AudioFine.preemptRaceConfig
      AudioFine.preemptRaceSched).shared.active ≠ ["u"] := by
  exact ⟨by decide, by decide, by decide⟩

/-- C3: FIFO delivery is refuted on the code.  With "a" speaking and "b"
queued, the thread of "a" executes `is_speaking = False` and
`_process_queue()` as two separate unsynchronized steps
(audio_system.py:81-82); a Normal `speak("c")` arriving between them
sees `is_speaking == False` and starts immediately, so the device start
order is a, c, b although the announcement order was a, b, c. -/
theorem audio_fifo_inversion_trace :
    (AudioFine.runSched AudioFine.fifoRaceConfig
      AudioFine.fifoRaceSched).shared.started = ["a", "c", "b"] ∧
    (AudioFine.runSched AudioFine.fifoRaceConfig
      AudioFine.fifoRaceSched).shared.started ≠ ["a", "b", "c"] := by
  exact ⟨by decide, by decide⟩

namespace Orchestrator

theorem estimate_car_eq (b : BBox) :
    estimateObjectDistance "car" b = max 100 (2000 / Real.sqrt (bboxArea b)) := by
  rw [estimateObjectDistance, if_neg (by decide), if_pos (by decide)]

theorem sqrt_four_hundred : Real.sqrt 400 = 20 := by
  rw [show (400 : ℝ) = 20 ^ 2 by norm_num, Real.sqrt_sq (by norm_num : (0 : ℝ) ≤ 20)]

end Orchestrator

/-- C4 (amended): the car-class distance estimate is at least the
car-class floor 100 and is non-increasing in the bounding-box area; it is
strictly decreasing only while the area is below 400 (the point where the
inverse-square-root term meets the floor), and is constant at the floor
beyond it. -/
theorem estimate_car_floor_and_antitone (b c : Orchestrator.BBox)
    (h0 : 0 < Orchestrator.bboxArea b)
    (hle : Orchestrator.bboxArea b ≤ Orchestrator.bboxArea c) :
    100 ≤ Orchestrator.estimateObjectDistance "car" b ∧
    Orchestrator.estimateObjectDistance "car" c ≤
      Orchestrator.estimateObjectDistance "car" b ∧
    (Orchestrator.bboxArea b < Orchestrator.bboxArea c →
      Orchestrator.bboxArea b < 400 →
      Orchestrator.estimateObjectDistance "car" c <
        Orchestrator.estimateObjectDistance "car" b) := by
  rw [Orchestrator.estimate_car_eq, Orchestrator.estimate_car_eq]
  have hsb : 0 < Real.sqrt (Orchestrator.bboxArea b) := Real.sqrt_pos.mpr h0
  have hsle : Real.sqrt (Orchestrator.bboxArea b) ≤ Real.sqrt (Orchestrator.bboxArea c) :=
    Real.sqrt_le_sqrt hle
  refine ⟨le_max_left _ _, ?_, ?_⟩
  · refine max_le_max le_rfl ?_
    gcongr
  · intro hlt h400
    have hslt : Real.sqrt (Orchestrator.bboxArea b) < Real.sqrt (Orchestrator.bboxArea c) :=
      Real.sqrt_lt_sqrt h0.le hlt
    have hs20 : Real.sqrt (Orchestrator.bboxArea b) < 20 := by
      calc Real.sqrt (Orchestrator.bboxArea b)
          < Real.sqrt 400 := Real.sqrt_lt_sqrt h0.le h400
        _ = 20 := Orchestrator.sqrt_four_hundred
    have h100 : (100 : ℝ) < 2000 / Real.sqrt (Orchestrator.bboxArea b) := by
      have := div_lt_div_of_pos_left (by norm_num : (0 : ℝ) < 2000) hsb hs20
      calc (100 : ℝ) = 2000 / 20 := by norm_num
        _ < 2000 / Real.sqrt (Orchestrator.bboxArea b) := this
    rw [max_eq_right h100.le]
    refine max_lt h100 ?_
    exact div_lt_div_of_pos_left (by norm_num) hsb hslt

theorem estimate_car_floor_and_antitone_witness :
    100 ≤ Orchestrator.estimateObjectDistance "car" ⟨0, 0, 10, 10⟩ ∧
    Orchestrator.estimateObjectDistance "car" ⟨0, 0, 20, 20⟩ ≤
      Orchestrator.estimateObjectDistance "car" ⟨0, 0, 10, 10⟩ ∧
    (Orchestrator.bboxArea ⟨0, 0, 10, 10⟩ < Orchestrator.bboxArea ⟨0, 0, 20, 20⟩ →
      Orchestrator.bboxArea ⟨0, 0, 10, 10⟩ < 400 →
      Orchestrator.estimateObjectDistance "car" ⟨0, 0, 20, 20⟩ <
        Orchestrator.estimateObjectDistance "car" ⟨0, 0, 10, 10⟩) :=
  estimate_car_floor_and_antitone ⟨0, 0, 10, 10⟩ ⟨0, 0, 20, 20⟩
    (by norm_num [Orchestrator.bboxArea]) (by norm_num [Orchestrator.bboxArea])

/-- C4 (counterexample): the car-class estimate is not strictly
decreasing for all positive areas: the boxes with areas 400 and 640000
both estimate exactly the floor 100, so the strict monotonicity of the claim
fails. -/
theorem estimate_car_not_strictly_decreasing :
    0 < Orchestrator.bboxArea ⟨0, 0, 20, 20⟩ ∧
    Orchestrator.bboxArea ⟨0, 0, 20, 20⟩ < Orchestrator.bboxArea ⟨0, 0, 800, 800⟩ ∧
    ¬ Orchestrator.estimateObjectDistance "car" ⟨0, 0, 800, 800⟩ <
        Orchestrator.estimateObjectDistance "car" ⟨0, 0, 20, 20⟩ := by
  have harea1 : Orchestrator.bboxArea ⟨0, 0, 20, 20⟩ = 400 := by
    norm_num [Orchestrator.bboxArea]
  have harea2 : Orchestrator.bboxArea ⟨0, 0, 800, 800⟩ = 640000 := by
    norm_num [Orchestrator.bboxArea]
  have hs2 : Real.sqrt 640000 = 800 := by
    rw [show (640000 : ℝ) = 800 ^ 2 by norm_num,
      Real.sqrt_sq (by norm_num : (0 : ℝ) ≤ 800)]
  have he1 : Orchestrator.estimateObjectDistance "car" ⟨0, 0, 20, 20⟩ = 100 := by
    rw [Orchestrator.estimate_car_eq, harea1, Orchestrator.sqrt_four_hundred]
    norm_num
  have he2 : Orchestrator.estimateObjectDistance "car" ⟨0, 0, 800, 800⟩ = 100 := by
    rw [Orchestrator.estimate_car_eq, harea2, hs2]
    rw [max_eq_left (by norm_num)]
  refine ⟨by rw [harea1]; norm_num, by rw [harea1, harea2]; norm_num, ?_⟩
  rw [he1, he2]
  exact lt_irrefl 100

/-- C5: the power-save tier transition has a 10-point hysteresis band
around the warning threshold 30: level 35 with power-save off stays
normal, level 25 enters power-save, level 36 while in power-save stays in
power-save, and power-save is left exactly when the level exceeds 40. -/
theorem power_save_hysteresis :
    Battery.updatePowerSaveMode 35 false = false ∧
    Battery.updatePowerSaveMode 25 false = true ∧
    Battery.updatePowerSaveMode 36 true = true ∧
    ∀ level : ℚ, Battery.updatePowerSaveMode level true = false ↔ 40 < level := by
  refine ⟨by norm_num [Battery.updatePowerSaveMode, Battery.warningLevel],
    by norm_num [Battery.updatePowerSaveMode, Battery.warningLevel],
    by norm_num [Battery.updatePowerSaveMode, Battery.warningLevel],
    fun level => ?_⟩
  simp only [Battery.updatePowerSaveMode, Battery.warningLevel]
  norm_num

/-- C6: with 100 recorded detections, 5 false positives and 3 false
negatives the tracker reports accuracy 95/100, precision 95/100 and
recall 95/98, and with zero recorded detections all four metrics are
returned as 0. -/
theorem accuracy_metrics_scenario :
    (Perf.getAccuracyMetrics 100 5 3).accuracy = 95 / 100 ∧
    (Perf.getAccuracyMetrics 100 5 3).precisionV = 95 / 100 ∧
    (Perf.getAccuracyMetrics 100 5 3).recallV = 95 / 98 ∧
    ∀ fp fn : ℕ, Perf.getAccuracyMetrics 0 fp fn = ⟨0, 0, 0, 0⟩ := by
  refine ⟨by norm_num [Perf.getAccuracyMetrics, Perf.truePositives],
    by norm_num [Perf.getAccuracyMetrics, Perf.precisionOf, Perf.truePositives],
    by norm_num [Perf.getAccuracyMetrics, Perf.recallOf, Perf.truePositives],
    fun fp fn => ?_⟩
  simp [Perf.getAccuracyMetrics]

/-- C7 (amended): after recording the latency samples
[50, 60, 55, 500, 58] ms the rolling mean is 723/5 = 144.6 ms, but the
threshold check fires zero times, not once: the check in the source uses a
hardcoded window of the last 10 samples and runs only once more than 10
samples are recorded, so this 5-sample sequence never triggers it. -/
theorem latency_scenario_mean_and_no_breach :
    Perf.meanList [50, 60, 55, 500, 58] = 723 / 5 ∧
    Perf.latencyWarningFires [50, 60, 55, 500, 58] 200 = false ∧
    Perf.breachCount [50, 60, 55, 500, 58] 200 = 0 := by
  refine ⟨by norm_num [Perf.meanList], by decide, by decide⟩

/-- C7 (counterexample): the threshold-breach signal does not fire
exactly once on the sample sequence [50, 60, 55, 500, 58] with threshold
200: even checking after every single sample, it fires zero times. -/
theorem latency_breach_does_not_fire_once :
    Perf.breachCount [50, 60, 55, 500, 58] 200 = 0 ∧
    Perf.breachCount [50, 60, 55, 500, 58] 200 ≠ 1 := by
  refine ⟨by decide, by decide⟩

/-- C8 (amended): a battery level at or below 10 classifies as critical;
the critical callback is the only one that performs the full cooperative
shutdown (stopping the running flag, both monitors and both sampling
loops), and it first speaks the final message — passed with the default
priority `False`, i.e. at normal rather than high priority — before
`stop_system` runs. -/
theorem critical_battery_shutdown (level : ℚ) (h : level ≤ 10) :
    Battery.classifyLevel level = some Battery.LevelType.critical ∧
    (Orchestrator.batteryCallback Battery.LevelType.critical).stopsSystem = true ∧
    (Orchestrator.batteryCallback Battery.LevelType.critical).spokenText
      = "Critical battery level, shutting down" ∧
    (Orchestrator.batteryCallback Battery.LevelType.critical).spokenPriority = false ∧
    (∀ lt, (Orchestrator.batteryCallback lt).stopsSystem = true ↔
      lt = Battery.LevelType.critical) ∧
    (∀ s : Orchestrator.SystemState,
      Orchestrator.handleBatteryEvent s Battery.LevelType.critical =
        Orchestrator.stopSystem
          { s with audio :=
              Audio.speak s.audio "Critical battery level, shutting down" false }) ∧
    (∀ s : Orchestrator.SystemState, ∀ lt, lt ≠ Battery.LevelType.critical →
      (Orchestrator.handleBatteryEvent s lt).isRunning = s.isRunning ∧
      (Orchestrator.handleBatteryEvent s lt).perfMonitoring = s.perfMonitoring ∧
      (Orchestrator.handleBatteryEvent s lt).batteryMonitoring = s.batteryMonitoring ∧
      (Orchestrator.handleBatteryEvent s lt).ultrasonicRunning = s.ultrasonicRunning ∧
      (Orchestrator.handleBatteryEvent s lt).visionRunning = s.visionRunning) := by
  refine ⟨?_, rfl, rfl, rfl, ?_, ?_, ?_⟩
  · simp [Battery.classifyLevel, Battery.criticalLevel, h]
  · intro lt; cases lt <;> simp [Orchestrator.batteryCallback]
  · intro s; rfl
  · intro s lt hlt
    cases lt with
    | critical => exact absurd rfl hlt
    | low => exact ⟨rfl, rfl, rfl, rfl, rfl⟩
    | warning => exact ⟨rfl, rfl, rfl, rfl, rfl⟩

theorem critical_battery_shutdown_witness :
    Battery.classifyLevel 5 = some Battery.LevelType.critical ∧
    (Orchestrator.batteryCallback Battery.LevelType.critical).stopsSystem = true ∧
    (Orchestrator.batteryCallback Battery.LevelType.critical).spokenText
      = "Critical battery level, shutting down" ∧
    (Orchestrator.batteryCallback Battery.LevelType.critical).spokenPriority = false ∧
    (∀ lt, (Orchestrator.batteryCallback lt).stopsSystem = true ↔
      lt = Battery.LevelType.critical) ∧
    (∀ s : Orchestrator.SystemState,
      Orchestrator.handleBatteryEvent s Battery.LevelType.critical =
        Orchestrator.stopSystem
          { s with audio :=
              Audio.speak s.audio "Critical battery level, shutting down" false }) ∧
    (∀ s : Orchestrator.SystemState, ∀ lt, lt ≠ Battery.LevelType.critical →
      (Orchestrator.handleBatteryEvent s lt).isRunning = s.isRunning ∧
      (Orchestrator.handleBatteryEvent s lt).perfMonitoring = s.perfMonitoring ∧
      (Orchestrator.handleBatteryEvent s lt).batteryMonitoring = s.batteryMonitoring ∧
      (Orchestrator.handleBatteryEvent s lt).ultrasonicRunning = s.ultrasonicRunning ∧
      (Orchestrator.handleBatteryEvent s lt).visionRunning = s.visionRunning) :=
  critical_battery_shutdown 5 (by norm_num)

/-- C8 (counterexample): the final critical-battery message is not
high-priority: `_battery_callback` calls `speak` with the default
`priority=False`, so the spoken-priority flag of the critical callback is
`false`, contradicting the claim that the final message is
high-priority. -/
theorem critical_message_not_high_priority :
    (Orchestrator.batteryCallback Battery.LevelType.critical).spokenPriority = false ∧
    (Orchestrator.batteryCallback Battery.LevelType.critical).spokenPriority ≠ true := by
  exact ⟨rfl, by decide⟩

/-- C9: a ranging measurement returns `none` (no event) on an echo
timeout and on a result outside the plausible [2, 400] cm range, never an
exception; on such a miss the monitoring loop clears its obstacle flag,
keeps its last distance, and continues with the remaining schedule. -/
theorem ranging_miss_returns_none (d : ℚ)
    (h : d * 34300 / 2 < Ultrasonic.minDistanceCm ∨
      Ultrasonic.maxDistanceCm < d * 34300 / 2) :
    Ultrasonic.measureDistance Ultrasonic.EchoOutcome.timeoutRise = none ∧
    Ultrasonic.measureDistance Ultrasonic.EchoOutcome.timeoutFall = none ∧
    Ultrasonic.measureDistance (Ultrasonic.EchoOutcome.pulse d) = none ∧
    (∀ (s : Ultrasonic.SensorState) (e : Ultrasonic.EchoOutcome),
      Ultrasonic.measureDistance e = none →
      Ultrasonic.monitorStep s e = { s with obstacleDetected := false }) ∧
    (∀ (s : Ultrasonic.SensorState) (e : Ultrasonic.EchoOutcome)
      (es : List Ultrasonic.EchoOutcome),
      Ultrasonic.monitorRun s (e :: es) =
        Ultrasonic.monitorRun (Ultrasonic.monitorStep s e) es) := by
  refine ⟨rfl, rfl, ?_, ?_, ?_⟩
  · simp only [Ultrasonic.measureDistance]
    rw [if_neg]
    rcases h with h | h
    · exact fun hc => absurd hc.1 (not_le.mpr h)
    · exact fun hc => absurd hc.2 (not_le.mpr h)
  · intro s e he
    unfold Ultrasonic.monitorStep
    rw [he]
  · intro s e es
    rfl

theorem ranging_miss_returns_none_witness :
    Ultrasonic.measureDistance Ultrasonic.EchoOutcome.timeoutRise = none ∧
    Ultrasonic.measureDistance Ultrasonic.EchoOutcome.timeoutFall = none ∧
    Ultrasonic.measureDistance (Ultrasonic.EchoOutcome.pulse 1) = none ∧
    (∀ (s : Ultrasonic.SensorState) (e : Ultrasonic.EchoOutcome),
      Ultrasonic.measureDistance e = none →
      Ultrasonic.monitorStep s e = { s with obstacleDetected := false }) ∧
    (∀ (s : Ultrasonic.SensorState) (e : Ultrasonic.EchoOutcome)
      (es : List Ultrasonic.EchoOutcome),
      Ultrasonic.monitorRun s (e :: es) =
        Ultrasonic.monitorRun (Ultrasonic.monitorStep s e) es) :=
  ranging_miss_returns_none 1
    (Or.inr (by norm_num [Ultrasonic.maxDistanceCm]))

/-- C10: in every tracker state with a positive detection total, the
reported precision equals the reported accuracy: true positives are
computed as total − falsePositives, so the precision denominator
truePositives + falsePositives collapses to the total. -/
theorem tracker_precision_eq_accuracy (total fp fn : ℕ) (h : 0 < total) :
    (Perf.getAccuracyMetrics total fp fn).precisionV =
      (Perf.getAccuracyMetrics total fp fn).accuracy := by
  have htot : total ≠ 0 := Nat.pos_iff_ne_zero.mp h
  have key : Perf.truePositives total fp + (fp : ℚ) = (total : ℚ) := by
    simp [Perf.truePositives]
  have hpos : (0 : ℚ) < (total : ℚ) := by exact_mod_cast h
  simp only [Perf.getAccuracyMetrics, if_neg htot, Perf.precisionOf, key, if_pos hpos]

theorem tracker_precision_eq_accuracy_witness :
    (Perf.getAccuracyMetrics 7 2 1).precisionV =
      (Perf.getAccuracyMetrics 7 2 1).accuracy :=
  tracker_precision_eq_accuracy 7 2 1 (by norm_num)

end IntelligentEye
